import Mathlib

/-!
Verification of the arcron job scheduler's core algorithms.

This file gives a shallow embedding, in Lean 4, of the load-adaptive job
scheduler's data model and operations, translated directly from the Go
sources:

* `internal/types/types.go`   — data model (`SystemMetrics`, `JobExecution`, …)
* `internal/ml` (engine)      — `PredictOptimalTime`, `predictWithHeuristics`,
  `extractFeatures`, `SimpleMLModel.predict`
* `internal/ml` (advanced)    — `DetectSeasonality`, `AnomalyDetector`,
  `checkMetric`, `updateBaseline`
* `internal/scheduler`        — `shouldAdjustSchedule`, `adjustJobSchedule`,
  `executeJob`, `rescheduleJob`
* `internal/jobs/jobs.go`     — `Manager.ExecuteJob`, `Manager.handleRetry`
* `internal/storage/storage.go` — `StoreJobExecution`, `StoreSystemMetrics`,
  `GetSystemMetrics`

Modelling conventions:

* Go `time.Time` / `time.Duration` values are `Int` nanoseconds
  (Go durations are `int64` nanosecond counts).
* Go `float64` values are embedded as exact rationals `ℚ` where the source
  performs only field operations and comparisons, and as reals `ℝ` where the
  source applies `math.Exp` / `math.Sqrt`.  Every concrete value appearing in
  a theorem is exactly representable in binary floating point or is reached
  only through operations (sums, power-of-two scalings) that are exact in
  `float64`, so the rational/real embedding agrees with the Go computation
  at those points.
* Counters that Go stores in `int` / `uint64` fields and uses only as
  non-negative counts (`RetryCount`, `Retries`, byte counters) are `Nat`.
* Channels, mutexes, goroutines, logging and SQL plumbing are elided; the
  database tables are lists of rows, and `gorm`'s `Create` (a plain SQL
  INSERT) is a list append that fails when the primary key is already
  present.
-/

namespace Arcron

/-! ## Time base -/

/-- One second in Go `time.Duration` units (nanoseconds). -/
def nsPerSecond : Int := 1000000000

/-- One minute in Go `time.Duration` units (nanoseconds): `time.Minute`. -/
def minuteNs : Int := 60 * nsPerSecond

/-! ## Data model (`internal/types/types.go`) -/

/-- `types.DiskIO`: disk I/O counters of one metric snapshot. -/
structure DiskIo where
  readBytes : Nat
  writeBytes : Nat
  readCount : Nat
  writeCount : Nat
  ioUtil : ℚ
deriving DecidableEq

/-- `types.NetworkIO`: network I/O counters of one metric snapshot. -/
structure NetworkIo where
  bytesSent : Nat
  bytesRecv : Nat
  packetsSent : Nat
  packetsRecv : Nat
  connections : Int
deriving DecidableEq

/-- `types.LoadAvg`: load averages of one metric snapshot. -/
structure LoadAvg where
  load1 : ℚ
  load5 : ℚ
  load15 : ℚ
deriving DecidableEq

/-- `types.SystemMetrics`: one metric snapshot. -/
structure SystemMetrics where
  timestamp : Int
  cpuUsage : ℚ
  memoryUsage : ℚ
  diskIo : DiskIo
  networkIo : NetworkIo
  loadAvg : LoadAvg
deriving DecidableEq

/-! ## ML engine (`internal/ml`) -/

/-- `ml.Prediction`: a per-job advisory.  `OptimalTime` is an instant in
nanoseconds; `Confidence` is compared against rational thresholds and stays
in `ℚ`; `ExpectedLoad` can come out of the sigmoid scorer and is `ℝ`. -/
structure Prediction where
  jobName : String
  optimalTime : Int
  confidence : ℚ
  reasoning : String
  expectedLoad : ℝ

/-- `ml.SimpleMLModel`: weight vector plus trained flag (the
`featureMean`/`featureStd` fields exist in the source but are never read). -/
structure SimpleMLModel where
  weights : List ℚ
  featureMean : List ℚ
  featureStd : List ℚ
  trained : Bool

/-- `Engine.predictWithHeuristics` (ml engine, lines 119-160): the heuristic
prediction tier.  `now` is `time.Now()`. -/
def predictWithHeuristics (now : Int) (jobName jobType : String)
    (metrics : SystemMetrics) : Prediction :=
  let dr : Int × String :=
    if jobType = "resource-intensive" then
      if 80 < metrics.cpuUsage ∨ 80 < metrics.memoryUsage then
        (30 * minuteNs, "High system load detected, delaying resource-intensive job")
      else if 60 < metrics.cpuUsage ∨ 60 < metrics.memoryUsage then
        (15 * minuteNs, "Moderate system load, slight delay for resource-intensive job")
      else
        (5 * minuteNs, "Low system load, minimal delay for resource-intensive job")
    else if jobType = "light" then
      if 90 < metrics.cpuUsage ∨ 90 < metrics.memoryUsage then
        (10 * minuteNs, "Very high system load, delaying light job")
      else
        (1 * minuteNs, "System load acceptable for light job")
    else
      (5 * minuteNs, "Unknown job type, using default delay")
  { jobName := jobName
    optimalTime := now + dr.1
    confidence := 1 / 2
    reasoning := dr.2
    expectedLoad := (((dr.1 : ℚ) / (minuteNs : ℚ) : ℚ) : ℝ) }

/-- `Engine.extractFeatures` (ml engine, lines 163-177).  The source builds a
7-entry slice: CPU %, memory %, disk I/O MB, network I/O MB, load1,
hour-of-day, day-of-week.  `hour` and `dayOfWeek` are read off `time.Now()`
and are passed in here. -/
def extractFeatures (hour dayOfWeek : ℚ) (metrics : SystemMetrics) : List ℚ :=
  [ metrics.cpuUsage,
    metrics.memoryUsage,
    ((metrics.diskIo.readBytes + metrics.diskIo.writeBytes : ℕ) : ℚ) / 1024 / 1024,
    ((metrics.networkIo.bytesSent + metrics.networkIo.bytesRecv : ℕ) : ℚ) / 1024 / 1024,
    metrics.loadAvg.load1,
    hour,
    dayOfWeek ]

/-- `SimpleMLModel.predict` (ml engine, lines 238-251): returns `0.0` when the
model is untrained or the feature count mismatches the weight count;
otherwise the sigmoid of the dot product, scaled to minutes. -/
noncomputable def SimpleMLModel.predict (m : SimpleMLModel) (features : List ℚ) : ℝ :=
  if m.trained = false ∨ features.length ≠ m.weights.length then 0
  else
    let s : ℚ := (List.zipWith (· * ·) features m.weights).sum
    (1 / (1 + Real.exp (-(s : ℝ)))) * 60

/-- Go's conversion of a `float64` to an integer type truncates toward zero. -/
noncomputable def goTrunc (x : ℝ) : Int :=
  if 0 ≤ x then ⌊x⌋ else ⌈x⌉

/-- `Engine.PredictOptimalTime` (ml engine, lines 98-117): heuristic tier when
the model is untrained, else the linear tier
`now + time.Duration(prediction) * time.Minute` with confidence `0.7`. -/
noncomputable def PredictOptimalTime (model : SimpleMLModel) (now : Int)
    (hour dayOfWeek : ℚ) (jobName jobType : String)
    (metrics : SystemMetrics) : Prediction :=
  if model.trained = false then predictWithHeuristics now jobName jobType metrics
  else
    let features := extractFeatures hour dayOfWeek metrics
    let prediction := model.predict features
    { jobName := jobName
      optimalTime := now + goTrunc prediction * minuteNs
      confidence := 7 / 10
      reasoning := "ML model prediction based on " ++ toString features.length ++ " features"
      expectedLoad := prediction }

/-! ## Job manager (`internal/jobs/jobs.go`) and execution store
(`internal/storage/storage.go`, job execution table) -/

/-- `config.JobConfig`: one job definition. -/
structure JobConfig where
  name : String
  command : String
  jobType : String
  schedule : String
  timeoutNs : Int
  retries : Nat
  priority : Int
  environment : List (String × String)
deriving DecidableEq

/-- `jobs.Job`: a job definition with its mutable status. -/
structure Job where
  config : JobConfig
  status : String
deriving DecidableEq

/-- `types.JobExecution` and `storage.JobExecutionRecord`: one execution
attempt.  `StoreJobExecution` copies the one into the other field by field,
so a single structure stands for both (gorm's auto-filled
`CreatedAt`/`UpdatedAt` columns are not modelled). -/
structure JobExecution where
  id : String
  jobName : String
  startTime : Int
  endTime : Int
  duration : ℚ
  status : String
  exitCode : Int
  output : String
  error : String
  retryCount : Nat
  environment : String
deriving DecidableEq

/-- `Storage.StoreJobExecution` (storage.go, lines 97-119).  The source calls
`s.db.Create(record)`: gorm's `Create` issues a plain SQL INSERT, so a row
whose primary key `id` is already present violates the UNIQUE constraint and
the table is left unchanged; the error is returned to the caller.  The
execution-table state is the list of rows. -/
def StoreJobExecution (table : List JobExecution) (e : JobExecution) :
    List JobExecution × Option String :=
  if table.any (fun r => r.id == e.id) then
    (table, some ("failed to store job execution: UNIQUE constraint failed"))
  else
    (table ++ [e], none)

/-- The result of one `Manager.executeCommand` call (jobs.go, lines 130-156):
combined output, exit code, error, and — supplied to the model as an input —
the wall-clock time the child process took.  One `CommandResult` per attempt
is consumed by `ExecuteJob`. -/
structure CommandResult where
  output : String
  exitCode : Int
  err : Option String
  durationNs : Int
deriving DecidableEq

/-- `generateExecutionID` (jobs.go, lines 252-254): `exec_<unix_nanos>`. -/
def generateExecutionID (nowNs : Int) : String :=
  "exec_" ++ toString nowNs

/-- `Manager.handleRetry` (jobs.go, lines 159-184), up to the recursive
`ExecuteJob` invocation: `none` when the retry ordinal has reached
`job.config.Retries` (the function returns without retrying); otherwise the
incremented execution record, the job marked `retrying`, the time after the
linear-backoff sleep `RetryCount * 30s`, and the table after the attempted
store of the `retrying` row.  The recursive re-execution itself is performed
by `ExecuteJob`. -/
def handleRetry (job : Job) (e : JobExecution) (now : Int)
    (table : List JobExecution) :
    Option (Job × JobExecution × Int × List JobExecution) :=
  if job.config.retries ≤ e.retryCount then none
  else
    let e := { e with retryCount := e.retryCount + 1, status := "retrying" }
    let job := { job with status := "retrying" }
    let table := (StoreJobExecution table e).1
    let backoff : Int := (e.retryCount : Int) * 30 * nsPerSecond
    some (job, e, now + backoff, table)

/-- The body of one `Manager.ExecuteJob` attempt (jobs.go, lines 81-119),
before the retry decision: create the execution record (`exec_<now>`, status
`running`, retry ordinal 0), store the start row, run the command, fill in
the terminal fields, mark the job, and store the terminal row — which
carries the **same id** as the start row.  Returns
(job, execution, clock after the command, table). -/
def execAttempt (job : Job) (now : Int) (table : List JobExecution)
    (r : CommandResult) : Job × JobExecution × Int × List JobExecution :=
  let e0 : JobExecution :=
    { id := generateExecutionID now
      jobName := job.config.name
      startTime := now
      endTime := 0
      duration := 0
      status := "running"
      exitCode := 0
      output := ""
      error := ""
      retryCount := 0
      environment := "" }
  let job1 : Job := { job with status := "running" }
  let table1 := (StoreJobExecution table e0).1
  let endTime := now + r.durationNs
  let e1 := { e0 with
    endTime := endTime
    duration := ((endTime - now : Int) : ℚ) / (nsPerSecond : ℚ)
    output := r.output
    exitCode := r.exitCode }
  match r.err with
  | some msg =>
      ({ job1 with status := "failed" },
       { e1 with status := "failed", error := msg },
       endTime,
       (StoreJobExecution table1 { e1 with status := "failed", error := msg }).1)
  | none =>
      ({ job1 with status := "completed" },
       { e1 with status := "completed" },
       endTime,
       (StoreJobExecution table1 { e1 with status := "completed" }).1)

/-- `Manager.ExecuteJob` (jobs.go, lines 80-127): one `execAttempt`, then on
failure with `Retries > 0` hand over to `handleRetry`, which sleeps and
re-invokes `ExecuteJob`.  The list of `CommandResult`s supplies one command
outcome per attempt and bounds the otherwise unbounded retry recursion; the
returned `Option String` is this call's own command error (retry failures
are only logged).  Returns (job, clock, execution table, error). -/
def ExecuteJob : Job → Int → List JobExecution → List CommandResult →
    Job × Int × List JobExecution × Option String
  | job, now, table, [] => (job, now, table, some ("command results exhausted"))
  | job, now, table, r :: rest =>
      if (execAttempt job now table r).2.1.status = "failed" ∧
          0 < (execAttempt job now table r).1.config.retries then
        match handleRetry (execAttempt job now table r).1
            (execAttempt job now table r).2.1
            (execAttempt job now table r).2.2.1
            (execAttempt job now table r).2.2.2 with
        | none =>
            ((execAttempt job now table r).1, (execAttempt job now table r).2.2.1,
             (execAttempt job now table r).2.2.2, r.err)
        | some (job3, _e3, now3, table3) =>
            ((ExecuteJob job3 now3 table3 rest).1,
             (ExecuteJob job3 now3 table3 rest).2.1,
             (ExecuteJob job3 now3 table3 rest).2.2.1, r.err)
      else
        ((execAttempt job now table r).1, (execAttempt job now table r).2.2.1,
         (execAttempt job now table r).2.2.2, r.err)

/-! ## Scheduler (`internal/scheduler`) -/

/-- A cron-wheel entry: either a baseline cron expression (registered via
`AddFunc(jobConfig.Schedule, …)`) or an `@every <delay>` constant-delay
entry (registered by `adjustJobSchedule`), which the cron wheel re-fires
periodically. -/
inductive CronSpec where
  | expr (spec : String)
  | every (delayNs : Int)
deriving DecidableEq

/-- The cron wheel: a counter handing out `cron.EntryID`s and the list of
live entries. -/
structure CronWheel where
  nextId : Nat
  entries : List (Nat × CronSpec)
deriving DecidableEq

/-- `cron.AddFunc`: registers an entry and returns its fresh `EntryID`
(parse failures of cron expressions are not modelled; `@every` strings built
from a `Duration.String()` always parse). -/
def CronWheel.add (w : CronWheel) (s : CronSpec) : CronWheel × Nat :=
  (⟨w.nextId + 1, w.entries ++ [(w.nextId, s)]⟩, w.nextId)

/-- `cron.Remove`: drops the entry with the given `EntryID`. -/
def CronWheel.remove (w : CronWheel) (id : Nat) : CronWheel :=
  ⟨w.nextId, w.entries.filter (fun e => e.1 != id)⟩

/-- `scheduler.ScheduledJob`: a job with its scheduling state. -/
structure ScheduledJob where
  job : Job
  entryId : Nat
  nextRun : Int
  lastRun : Int
  runCount : Nat
  status : String
  prediction : Option Prediction

/-- `Scheduler.shouldAdjustSchedule` (scheduler, lines 378-393): no
adjustment while the job is `running`, none when the confidence is below
0.3, otherwise adjust exactly when `|OptimalTime − NextRun| > 5 min`. -/
def shouldAdjustSchedule (sj : ScheduledJob) (p : Prediction) : Bool :=
  if sj.status = "running" then false
  else if p.confidence < 3 / 10 then false
  else decide (5 * minuteNs < |p.optimalTime - sj.nextRun|)

/-- `Scheduler.adjustJobSchedule` (scheduler, lines 395-422): remove the
current entry, compute `delay := time.Until(OptimalTime)` clamped to one
minute when negative, register an `@every delay` entry, and update the
scheduled job's `EntryID`, `NextRun` and `Status`. -/
def adjustJobSchedule (w : CronWheel) (sj : ScheduledJob) (p : Prediction)
    (now : Int) : CronWheel × ScheduledJob :=
  let w1 := w.remove sj.entryId
  let delay := p.optimalTime - now
  let delay := if delay < 0 then 1 * minuteNs else delay
  let wi := w1.add (CronSpec.every delay)
  (wi.1, { sj with entryId := wi.2, nextRun := p.optimalTime, status := "adjusted" })

/-- The body of `Scheduler.adjustSchedules` (scheduler, lines 347-376) for
one scheduled job, given the prediction the ML engine returned for it:
attach the prediction, then adjust only when `shouldAdjustSchedule` says
so. -/
def adjustSchedulesStep (w : CronWheel) (sj : ScheduledJob) (p : Prediction)
    (now : Int) : CronWheel × ScheduledJob :=
  let sj := { sj with prediction := some p }
  if shouldAdjustSchedule sj p then adjustJobSchedule w sj p now else (w, sj)

/-- `Scheduler.rescheduleJob` (scheduler, lines 446-462): remove the current
entry and re-register the job on its baseline cron expression. -/
def rescheduleJob (w : CronWheel) (sj : ScheduledJob) : CronWheel × ScheduledJob :=
  let w1 := w.remove sj.entryId
  let wi := w1.add (CronSpec.expr sj.job.config.schedule)
  (wi.1, { sj with entryId := wi.2, status := "scheduled" })

/-- `Scheduler.executeJob` (scheduler, lines 425-444): mark the scheduled job
`running`, call `Manager.ExecuteJob` — with no check of the previous
lifecycle state — then mark `failed` or `completed`, and reschedule on the
baseline expression.  Returns (wheel, scheduled job, execution table). -/
def Scheduler.executeJob (w : CronWheel) (sj : ScheduledJob)
    (results : List CommandResult) (now : Int) (table : List JobExecution) :
    CronWheel × ScheduledJob × List JobExecution :=
  let sj1 := { sj with status := "running", lastRun := now }
  let out := ExecuteJob sj1.job now table results
  let sj2 := { sj1 with job := out.1 }
  let sj3 :=
    if out.2.2.2.isSome then { sj2 with status := "failed" }
    else { sj2 with status := "completed", runCount := sj2.runCount + 1 }
  let ws := rescheduleJob w sj3
  (ws.1, ws.2, out.2.2.1)

/-! ## Metrics store (`internal/storage/storage.go`, metrics table) -/

/-- `storage.SystemMetricsRecord`: the persisted shape of a snapshot — disk
and network I/O collapsed to single MiB scalars, only `Load1` kept (the
auto-increment `ID` and `CreatedAt` columns are not modelled). -/
structure SystemMetricsRecord where
  timestamp : Int
  cpuUsage : ℚ
  memoryUsage : ℚ
  diskIo : ℚ
  networkIo : ℚ
  loadAvg : ℚ
deriving DecidableEq

/-- The record built by `Storage.StoreSystemMetrics` (storage.go, lines
155-163) from a snapshot. -/
def metricsToRecord (m : SystemMetrics) : SystemMetricsRecord :=
  { timestamp := m.timestamp
    cpuUsage := m.cpuUsage
    memoryUsage := m.memoryUsage
    diskIo := ((m.diskIo.readBytes + m.diskIo.writeBytes : ℕ) : ℚ) / 1024 / 1024
    networkIo := ((m.networkIo.bytesSent + m.networkIo.bytesRecv : ℕ) : ℚ) / 1024 / 1024
    loadAvg := m.loadAvg.load1 }

/-- `Storage.StoreSystemMetrics` (storage.go, lines 154-171): append the
collapsed record to the metrics table. -/
def StoreSystemMetrics (table : List SystemMetricsRecord) (m : SystemMetrics) :
    List SystemMetricsRecord :=
  table ++ [metricsToRecord m]

/-- The snapshot rebuilt by `Storage.GetSystemMetrics` (storage.go, lines
186-204) from a stored record: `ReadBytes`/`BytesSent` take
`uint64(scalar * 1024 * 1024)` (Go float-to-integer conversion truncates
toward zero; the scalars are non-negative, so this is the floor) and every
other counter is the zero value. -/
def recordToMetrics (r : SystemMetricsRecord) : SystemMetrics :=
  { timestamp := r.timestamp
    cpuUsage := r.cpuUsage
    memoryUsage := r.memoryUsage
    diskIo :=
      { readBytes := (⌊r.diskIo * 1024 * 1024⌋).toNat
        writeBytes := 0
        readCount := 0
        writeCount := 0
        ioUtil := 0 }
    networkIo :=
      { bytesSent := (⌊r.networkIo * 1024 * 1024⌋).toNat
        bytesRecv := 0
        packetsSent := 0
        packetsRecv := 0
        connections := 0 }
    loadAvg := { load1 := r.loadAvg, load5 := 0, load15 := 0 } }

/-- `Storage.GetSystemMetrics` (storage.go, lines 174-207): rows with
`timestamp BETWEEN start AND end`, ordered by timestamp descending, limited
when `limit > 0`, each converted back to a snapshot. -/
def GetSystemMetrics (table : List SystemMetricsRecord)
    (start endT : Int) (limit : Int) : List SystemMetrics :=
  let records := table.filter (fun r => decide (start ≤ r.timestamp ∧ r.timestamp ≤ endT))
  let records := records.mergeSort (fun a b => decide (b.timestamp ≤ a.timestamp))
  let records := if 0 < limit then records.take limit.toNat else records
  records.map recordToMetrics

/-! ## Anomaly detector (`internal/ml`, advanced models) -/

/-- `ml.Anomaly`: a detected anomaly.  The Go struct's `Timestamp`
(`time.Now()`) and formatted `Description` fields are not modelled. -/
structure Anomaly where
  anomalyType : String
  severity : String
  value : ℝ
  expected : ℝ
  deviation : ℝ

/-- `ml.AnomalyDetector`: rolling baseline mean and standard deviation of
combined load, plus the σ threshold. -/
structure AnomalyDetector where
  baselineMean : ℝ
  baselineStd : ℝ
  threshold : ℝ

/-- `ml.NewAnomalyDetector`: threshold 3 (3-sigma rule); the baseline fields
start at their zero values. -/
def NewAnomalyDetector : AnomalyDetector :=
  { baselineMean := 0, baselineStd := 0, threshold := 3 }

/-- Combined load of a snapshot: `(CPUUsage + MemoryUsage) / 2`. -/
def combinedLoad (m : SystemMetrics) : ℚ :=
  (m.cpuUsage + m.memoryUsage) / 2

/-- `AnomalyDetector.checkMetric` (advanced models, lines 217-255): no
anomaly when the baseline σ is zero or the deviation is inside the
threshold; otherwise severity critical/high/medium by the |deviation|
bands, low below them. -/
noncomputable def checkMetric (threshold : ℝ) (metricType : String)
    (value mean std : ℝ) : Option Anomaly :=
  if std = 0 then none
  else
    let deviation := (value - mean) / std
    if |deviation| < threshold then none
    else
      let severity :=
        if 4 ≤ |deviation| then "critical"
        else if 3.5 ≤ |deviation| then "high"
        else if 3 ≤ |deviation| then "medium"
        else "low"
      some { anomalyType := metricType
             severity := severity
             value := value
             expected := mean
             deviation := deviation }

/-- `AnomalyDetector.updateBaseline` (advanced models, lines 258-294): with
fewer than 10 historical snapshots the baseline is left as it is; otherwise
it becomes the mean and standard deviation of the combined loads. -/
noncomputable def updateBaseline (ad : AnomalyDetector)
    (history : List SystemMetrics) : AnomalyDetector :=
  if history.length < 10 then ad
  else
    let loads : List ℝ := history.map (fun m => ((combinedLoad m : ℚ) : ℝ))
    let mean := loads.sum / (loads.length : ℝ)
    let variance := (loads.map (fun l => (l - mean) ^ 2)).sum / (loads.length : ℝ)
    { ad with baselineMean := mean, baselineStd := Real.sqrt variance }

/-- `AnomalyDetector.DetectAnomalies` (advanced models, lines 183-214):
refresh the baseline from the 7-day history, then check the CPU, memory,
disk-MiB and network-MiB channels in that order against it. -/
noncomputable def DetectAnomalies (ad : AnomalyDetector)
    (history : List SystemMetrics) (m : SystemMetrics) : List Anomaly :=
  let ad := updateBaseline ad history
  let diskMb : ℝ := (((m.diskIo.readBytes + m.diskIo.writeBytes : ℕ) : ℚ) / 1024 / 1024 : ℚ)
  let netMb : ℝ := (((m.networkIo.bytesSent + m.networkIo.bytesRecv : ℕ) : ℚ) / 1024 / 1024 : ℚ)
  ([ checkMetric ad.threshold "cpu" ((m.cpuUsage : ℚ) : ℝ) ad.baselineMean ad.baselineStd,
     checkMetric ad.threshold "memory" ((m.memoryUsage : ℚ) : ℝ) ad.baselineMean ad.baselineStd,
     checkMetric ad.threshold "disk" diskMb ad.baselineMean ad.baselineStd,
     checkMetric ad.threshold "network" netMb ad.baselineMean ad.baselineStd ]).filterMap id

/-! ## Seasonality detector (`internal/ml`, advanced models) -/

/-- One historical snapshot as `DetectSeasonality` consumes it:
`Timestamp.Hour()`, `Timestamp.Weekday()` and the two load percentages (the
calendar projections of `time.Time` are taken as given fields here). -/
structure SeasonSample where
  hour : Nat
  weekday : Nat
  cpuUsage : ℚ
  memoryUsage : ℚ
deriving DecidableEq

/-- Combined load of a seasonality sample: `(CPUUsage + MemoryUsage) / 2`. -/
def sampleLoad (s : SeasonSample) : ℚ :=
  (s.cpuUsage + s.memoryUsage) / 2

/-- The hour-of-day bins that received at least one sample. -/
def hourKeys (ms : List SeasonSample) : List Nat :=
  (ms.map (fun s => s.hour)).dedup

/-- The day-of-week bins that received at least one sample. -/
def dayKeys (ms : List SeasonSample) : List Nat :=
  (ms.map (fun s => s.weekday)).dedup

/-- Mean of a list of loads (`sum / float64(len(loads))`). -/
def binAvg (loads : List ℚ) : ℚ :=
  loads.sum / (loads.length : ℚ)

/-- `hourlyAvg[hour]`: mean combined load of one hour bin. -/
def hourlyAvg (ms : List SeasonSample) (h : Nat) : ℚ :=
  binAvg ((ms.filter (fun s => s.hour == h)).map sampleLoad)

/-- `dayAvg[day]`: mean combined load of one day-of-week bin. -/
def dayAvg (ms : List SeasonSample) (d : Nat) : ℚ :=
  binAvg ((ms.filter (fun s => s.weekday == d)).map sampleLoad)

/-- `overallAvg`: mean of the hour-bin means. -/
def hourOverallAvg (ms : List SeasonSample) : ℚ :=
  ((hourKeys ms).map (hourlyAvg ms)).sum / ((hourKeys ms).length : ℚ)

/-- `dayOverallAvg`: mean of the day-bin means. -/
def dayOverallAvg (ms : List SeasonSample) : ℚ :=
  ((dayKeys ms).map (dayAvg ms)).sum / ((dayKeys ms).length : ℚ)

/-- Hour bins whose mean exceeds 1.2 × the overall mean. -/
def peakHours (ms : List SeasonSample) : List Nat :=
  (hourKeys ms).filter (fun h => decide (hourOverallAvg ms * (12 / 10) < hourlyAvg ms h))

/-- Hour bins that are not peaks and whose mean is below 0.8 × the overall
mean (the source's `else if`). -/
def lowHours (ms : List SeasonSample) : List Nat :=
  (hourKeys ms).filter (fun h =>
    !(decide (hourOverallAvg ms * (12 / 10) < hourlyAvg ms h)) &&
      decide (hourlyAvg ms h < hourOverallAvg ms * (8 / 10)))

/-- Day bins whose mean exceeds 1.2 × the day overall mean. -/
def peakDays (ms : List SeasonSample) : List Nat :=
  (dayKeys ms).filter (fun d => decide (dayOverallAvg ms * (12 / 10) < dayAvg ms d))

/-- Day bins that are not peaks and whose mean is below 0.8 × the day
overall mean. -/
def lowDays (ms : List SeasonSample) : List Nat :=
  (dayKeys ms).filter (fun d =>
    !(decide (dayOverallAvg ms * (12 / 10) < dayAvg ms d)) &&
      decide (dayAvg ms d < dayOverallAvg ms * (8 / 10)))

/-- Population variance of the hour-bin means around `overallAvg`. -/
def hourVariance (ms : List SeasonSample) : ℚ :=
  ((hourKeys ms).map (fun h => (hourlyAvg ms h - hourOverallAvg ms) ^ 2)).sum /
    ((hourKeys ms).length : ℚ)

/-- Population variance of the day-bin means around `dayOverallAvg`. -/
def dayVariance (ms : List SeasonSample) : ℚ :=
  ((dayKeys ms).map (fun d => (dayAvg ms d - dayOverallAvg ms) ^ 2)).sum /
    ((dayKeys ms).length : ℚ)

/-- `strength` of the hourly pattern (advanced models, lines 117-126):
σ(hour-bin means) / mean, clipped above at 1. -/
noncomputable def hourStrength (ms : List SeasonSample) : ℝ :=
  let s := Real.sqrt ((hourVariance ms : ℚ) : ℝ) / ((hourOverallAvg ms : ℚ) : ℝ)
  if 1 < s then 1 else s

/-- `dayStrength` (advanced models, lines 139-145): σ(day-bin means) /
day mean — the source does not clip this one. -/
noncomputable def dayStrength (ms : List SeasonSample) : ℝ :=
  Real.sqrt ((dayVariance ms : ℚ) : ℝ) / ((dayOverallAvg ms : ℚ) : ℝ)

/-- `ml.SeasonalPattern`. -/
structure SeasonalPattern where
  patternType : String
  strength : ℝ
  peakHours : List Nat
  lowHours : List Nat
  peakDays : List Nat
  lowDays : List Nat

/-- `SeasonalityDetector.DetectSeasonality` (advanced models, lines 36-153):
`none` below 24 samples; otherwise a `daily` pattern carrying the clipped
hourly strength, replaced by a `weekly` pattern carrying the (unclipped) day
strength only when some peak or low day exists **and** the day strength
exceeds the hourly strength. -/
noncomputable def DetectSeasonality (ms : List SeasonSample) :
    Option SeasonalPattern :=
  if ms.length < 24 then none
  else
    let pattern : SeasonalPattern :=
      { patternType := "daily"
        strength := hourStrength ms
        peakHours := peakHours ms
        lowHours := lowHours ms
        peakDays := peakDays ms
        lowDays := lowDays ms }
    if 0 < (peakDays ms).length ∨ 0 < (lowDays ms).length then
      if hourStrength ms < dayStrength ms then
        some { pattern with patternType := "weekly", strength := dayStrength ms }
      else some pattern
    else some pattern

/-! ## Concrete inputs used by witnesses and counterexamples -/

/-- A snapshot with CPU = 85 %, memory = 85 % (spec scenario: high-load
deferral). -/
def mHigh : SystemMetrics :=
  { timestamp := 0
    cpuUsage := 85
    memoryUsage := 85
    diskIo := ⟨0, 0, 0, 0, 0⟩
    networkIo := ⟨0, 0, 0, 0, 0⟩
    loadAvg := ⟨0, 0, 0⟩ }

/-- An all-zero snapshot. -/
def mZero : SystemMetrics :=
  { timestamp := 0
    cpuUsage := 0
    memoryUsage := 0
    diskIo := ⟨0, 0, 0, 0, 0⟩
    networkIo := ⟨0, 0, 0, 0, 0⟩
    loadAvg := ⟨0, 0, 0⟩ }

/-- A snapshot with split disk counters (3 MiB read + 1 MiB written,
2 MiB sent + 2 MiB received). -/
def mSplit : SystemMetrics :=
  { timestamp := 5
    cpuUsage := 40
    memoryUsage := 50
    diskIo := ⟨3145728, 1048576, 7, 9, 0⟩
    networkIo := ⟨2097152, 2097152, 11, 13, 2⟩
    loadAvg := ⟨1, 2, 3⟩ }

/-- The default `backup` job, without retries. -/
def jobBackup : Job :=
  { config :=
      { name := "backup"
        command := "rsync -av /data /backup"
        jobType := "resource-intensive"
        schedule := "0 2 * * *"
        timeoutNs := 3600 * nsPerSecond
        retries := 0
        priority := 1
        environment := [] }
    status := "pending" }

/-- A job allowing one retry. -/
def jobRetry : Job :=
  { config :=
      { name := "flaky"
        command := "/bin/false"
        jobType := "light"
        schedule := "0 0 * * *"
        timeoutNs := 5 * nsPerSecond
        retries := 1
        priority := 1
        environment := [] }
    status := "pending" }

/-- A successful command outcome taking two seconds. -/
def rOk : CommandResult :=
  { output := "done", exitCode := 0, err := none, durationNs := 2 * nsPerSecond }

/-- A failing command outcome taking one second. -/
def rFail : CommandResult :=
  { output := "", exitCode := 1, err := some ("exit status 1"), durationNs := nsPerSecond }

/-- A fresh failed execution record with retry ordinal 0, as `ExecuteJob`
hands it to `handleRetry`. -/
def eFailed : JobExecution :=
  { id := "exec_0"
    jobName := "flaky"
    startTime := 0
    endTime := nsPerSecond
    duration := 1
    status := "failed"
    exitCode := 1
    output := ""
    error := "exit status 1"
    retryCount := 0
    environment := "" }

/-- A scheduled job in lifecycle state `running`. -/
def sjRunning : ScheduledJob :=
  { job := jobBackup
    entryId := 0
    nextRun := 0
    lastRun := 0
    runCount := 0
    status := "running"
    prediction := none }

/-- A scheduled job in lifecycle state `scheduled`. -/
def sjScheduled : ScheduledJob :=
  { job := jobBackup
    entryId := 0
    nextRun := 0
    lastRun := 0
    runCount := 0
    status := "scheduled"
    prediction := none }

/-- A one-entry cron wheel holding `sjScheduled`'s baseline entry. -/
def wheelOne : CronWheel :=
  { nextId := 1, entries := [(0, CronSpec.expr "0 2 * * *")] }

/-- An advisory 30 seconds ahead of `now = 0`, confidence 0.5. -/
def pNear : Prediction :=
  { jobName := "backup"
    optimalTime := 30 * nsPerSecond
    confidence := 1 / 2
    reasoning := ""
    expectedLoad := 0 }

/-- An advisory 20 minutes ahead of `now = 0` with confidence 0.2 — the
spec's gate-rejection scenario. -/
def pLowConfidence : Prediction :=
  { jobName := "backup"
    optimalTime := 20 * minuteNs
    confidence := 1 / 5
    reasoning := ""
    expectedLoad := 0 }

/-- 24 seasonality samples, all in hour bin 10, split across weekday bins 1
(load 100) and 2 (load 90): the hour bins are constant while the day bins
vary, and no day bin leaves the ±20 % band. -/
def cexSamples : List SeasonSample :=
  List.replicate 12 ⟨10, 1, 100, 100⟩ ++ List.replicate 12 ⟨10, 2, 90, 90⟩

/-! ## Theorems -/

/-- Helper: a dot product against an all-zero weight vector vanishes. -/
theorem sum_zipWith_mul_replicate_zero (l : List ℚ) (n : ℕ) :
    (List.zipWith (· * ·) l (List.replicate n (0 : ℚ))).sum = 0 := by
  induction l generalizing n with
  | nil => simp
  | cons a t ih =>
    cases n with
    | zero => simp
    | succ k =>
      rw [List.replicate_succ, List.zipWith_cons_cons, List.sum_cons, ih k]
      simp

/-- C4: the heuristic prediction tier.  For `resource-intensive`: 30 min
delay with a "High system load" reasoning above the 80 % band, 15 min above
the 60 % band, else 5 min; for `light`: 10 min above the 90 % band, else
1 min; 5 min for any other type; confidence is always 0.5; and the trained
check of `PredictOptimalTime` routes every untrained model here. -/
theorem heuristic_tier_spec (now : Int) (name : String) (m : SystemMetrics) :
    ((80 < m.cpuUsage ∨ 80 < m.memoryUsage) →
       (predictWithHeuristics now name "resource-intensive" m).optimalTime
           = now + 30 * minuteNs ∧
       (∃ a b, (predictWithHeuristics now name "resource-intensive" m).reasoning
           = a ++ "High system load" ++ b))
  ∧ (¬(80 < m.cpuUsage ∨ 80 < m.memoryUsage) →
       (60 < m.cpuUsage ∨ 60 < m.memoryUsage) →
       (predictWithHeuristics now name "resource-intensive" m).optimalTime
           = now + 15 * minuteNs)
  ∧ (¬(80 < m.cpuUsage ∨ 80 < m.memoryUsage) →
       ¬(60 < m.cpuUsage ∨ 60 < m.memoryUsage) →
       (predictWithHeuristics now name "resource-intensive" m).optimalTime
           = now + 5 * minuteNs)
  ∧ ((90 < m.cpuUsage ∨ 90 < m.memoryUsage) →
       (predictWithHeuristics now name "light" m).optimalTime
           = now + 10 * minuteNs)
  ∧ (¬(90 < m.cpuUsage ∨ 90 < m.memoryUsage) →
       (predictWithHeuristics now name "light" m).optimalTime
           = now + 1 * minuteNs)
  ∧ (∀ ty : String, ty ≠ "resource-intensive" → ty ≠ "light" →
       (predictWithHeuristics now name ty m).optimalTime = now + 5 * minuteNs)
  ∧ (∀ ty : String, (predictWithHeuristics now name ty m).confidence = 1 / 2)
  ∧ (∀ (wt fm fs : List ℚ) (hour dow : ℚ) (ty : String),
       PredictOptimalTime ⟨wt, fm, fs, false⟩ now hour dow name ty m
         = predictWithHeuristics now name ty m) := by
  refine ⟨?_, ?_, ?_, ?_, ?_, ?_, ?_, ?_⟩
  · intro h
    constructor
    · simp only [predictWithHeuristics, if_pos rfl, if_pos h]
      simp
    · refine ⟨"", " detected, delaying resource-intensive job", ?_⟩
      simp only [predictWithHeuristics, if_pos rfl, if_pos h]
      simp
  · intro h80 h60
    simp only [predictWithHeuristics, if_pos rfl, if_neg h80, if_pos h60]
    simp
  · intro h80 h60
    simp only [predictWithHeuristics, if_pos rfl, if_neg h80, if_neg h60]
    simp
  · intro h
    have hne : ¬("light" = "resource-intensive") := by decide
    simp only [predictWithHeuristics, if_neg hne, if_pos rfl, if_pos h]
    simp
  · intro h
    have hne : ¬("light" = "resource-intensive") := by decide
    simp only [predictWithHeuristics, if_neg hne, if_pos rfl, if_neg h]
    simp
  · intro ty h1 h2
    simp only [predictWithHeuristics, if_neg h1, if_neg h2]
  · intro ty
    simp only [predictWithHeuristics]
  · intro wt fm fs hour dow ty
    simp only [PredictOptimalTime, if_pos rfl]
    simp

/-- C4 witness: at CPU = 85 %, memory = 85 %, a `resource-intensive` job is
deferred by exactly 30 minutes with a "High system load" reasoning. -/
theorem heuristic_tier_spec_witness :
    (predictWithHeuristics 0 "backup" "resource-intensive" mHigh).optimalTime
        = 0 + 30 * minuteNs ∧
    (∃ a b, (predictWithHeuristics 0 "backup" "resource-intensive" mHigh).reasoning
        = a ++ "High system load" ++ b) :=
  (heuristic_tier_spec 0 "backup" mHigh).1 (Or.inl (by norm_num [mHigh]))

/-- C6 counterexample: the feature vector has 7 slots, not 8, and there is no
bias slot.  With an installed all-zero weight vector of 8 slots — the shape
the claim describes — `predict` hits its length-mismatch guard and returns
`0.0`, so the returned delay is 0 minutes, not `sigmoid(0)·60 = 30`. -/
theorem linear_tier_8_slot_cex :
    (extractFeatures 0 0 mZero).length = 7
  ∧ (7 : ℕ) ≠ 8
  ∧ (PredictOptimalTime ⟨List.replicate 8 0, [], [], true⟩ 0 0 0
        "backup" "resource-intensive" mZero).optimalTime = 0
  ∧ (0 : Int) ≠ 0 + 30 * minuteNs := by
  refine ⟨rfl, by decide, ?_, by norm_num [minuteNs, nsPerSecond]⟩
  have hlen : (extractFeatures 0 0 mZero).length = 7 := rfl
  have hp : SimpleMLModel.predict ⟨List.replicate 8 0, [], [], true⟩
      (extractFeatures 0 0 mZero) = 0 := by
    simp only [SimpleMLModel.predict]
    rw [if_pos]
    right
    rw [hlen]
    simp
  simp only [PredictOptimalTime]
  rw [if_neg (by simp)]
  simp only [hp]
  have : goTrunc 0 = 0 := by simp [goTrunc]
  rw [this]
  ring

/-- C6 (amended): with a trained model whose weight vector has 7 entries —
matching the source's 7-slot feature vector (CPU %, memory %, disk IO MB,
network IO MB, load1, hour-of-day, day-of-week; no bias slot) —
`PredictOptimalTime` returns
`now + time.Duration(sigmoid(Σ wᵢ·fᵢ)·60)·time.Minute` with confidence
exactly 0.7, and with an all-zero 7-entry weight vector the delay is exactly
`sigmoid(0)·60 = 30` minutes. -/
theorem linear_tier_spec (w fm fs : List ℚ) (now : Int) (hour dow : ℚ)
    (name ty : String) (m : SystemMetrics) (hw : w.length = 7) :
    (PredictOptimalTime ⟨w, fm, fs, true⟩ now hour dow name ty m).optimalTime
      = now + goTrunc ((1 / (1 + Real.exp
          (-(((List.zipWith (· * ·) (extractFeatures hour dow m) w).sum : ℚ) : ℝ)))) * 60)
            * minuteNs
  ∧ (PredictOptimalTime ⟨w, fm, fs, true⟩ now hour dow name ty m).confidence = 7 / 10
  ∧ (w = List.replicate 7 (0 : ℚ) →
      (PredictOptimalTime ⟨w, fm, fs, true⟩ now hour dow name ty m).optimalTime
        = now + 30 * minuteNs) := by
  have hlen : (extractFeatures hour dow m).length = 7 := rfl
  have hp : SimpleMLModel.predict ⟨w, fm, fs, true⟩ (extractFeatures hour dow m)
      = (1 / (1 + Real.exp
          (-(((List.zipWith (· * ·) (extractFeatures hour dow m) w).sum : ℚ) : ℝ)))) * 60 := by
    simp only [SimpleMLModel.predict]
    rw [if_neg]
    push_neg
    refine ⟨by simp, ?_⟩
    rw [hlen, hw]
  have hmain :
      (PredictOptimalTime ⟨w, fm, fs, true⟩ now hour dow name ty m).optimalTime
        = now + goTrunc ((1 / (1 + Real.exp
            (-(((List.zipWith (· * ·) (extractFeatures hour dow m) w).sum : ℚ) : ℝ)))) * 60)
              * minuteNs := by
    simp only [PredictOptimalTime]
    rw [if_neg (by simp)]
    simp only [hp]
  refine ⟨hmain, ?_, ?_⟩
  · simp only [PredictOptimalTime]
    rw [if_neg (by simp)]
  · intro hzero
    rw [hmain, hzero, sum_zipWith_mul_replicate_zero]
    have h30 : ((1 : ℝ) / (1 + Real.exp (-(((0 : ℚ) : ℝ)))) * 60) = 30 := by
      rw [Rat.cast_zero, neg_zero, Real.exp_zero]
      norm_num
    rw [h30]
    have : goTrunc 30 = 30 := by
      rw [goTrunc, if_pos (by norm_num)]
      rw [show (30 : ℝ) = ((30 : ℤ) : ℝ) by norm_num, Int.floor_intCast]
    rw [this]

/-- C6 witness: a trained all-zero 7-entry weight vector defers any job by
exactly 30 minutes. -/
theorem linear_tier_spec_witness :
    (PredictOptimalTime ⟨List.replicate 7 0, [], [], true⟩ 0 0 0
        "backup" "resource-intensive" mZero).optimalTime = 0 + 30 * minuteNs :=
  (linear_tier_spec (List.replicate 7 0) [] [] 0 0 0 "backup" "resource-intensive"
    mZero (by simp)).2.2 rfl

/-- C3: the adjustment gate.  `shouldAdjustSchedule` passes exactly when the
job is not `running`, the confidence is at least 0.3, and the advisory's
optimal time differs from `next_fire` by strictly more than 5 minutes; and
whenever confidence < 0.3 or the difference is within 5 minutes, the
adjustment-loop body leaves the cron wheel, `next_fire` and the entry handle
untouched. -/
theorem adjustment_gate_spec (w : CronWheel) (sj : ScheduledJob)
    (p : Prediction) (now : Int) :
    (shouldAdjustSchedule sj p = true ↔
       sj.status ≠ "running" ∧ 3 / 10 ≤ p.confidence ∧
         5 * minuteNs < |p.optimalTime - sj.nextRun|)
  ∧ (p.confidence < 3 / 10 ∨ |p.optimalTime - sj.nextRun| ≤ 5 * minuteNs →
       (adjustSchedulesStep w sj p now).1 = w ∧
       (adjustSchedulesStep w sj p now).2.nextRun = sj.nextRun ∧
       (adjustSchedulesStep w sj p now).2.entryId = sj.entryId) := by
  have hiff : shouldAdjustSchedule sj p = true ↔
      sj.status ≠ "running" ∧ 3 / 10 ≤ p.confidence ∧
        5 * minuteNs < |p.optimalTime - sj.nextRun| := by
    unfold shouldAdjustSchedule
    split_ifs with h1 h2
    · simp [h1]
    · simp only [Bool.false_eq_true, false_iff]
      intro hc
      exact absurd h2 (not_lt.mpr hc.2.1)
    · simp only [decide_eq_true_eq]
      constructor
      · intro h
        exact ⟨h1, not_lt.mp h2, h⟩
      · intro hc
        exact hc.2.2
  refine ⟨hiff, ?_⟩
  intro hfail
  have hgate : shouldAdjustSchedule { sj with prediction := some p } p = false := by
    have : ¬(shouldAdjustSchedule { sj with prediction := some p } p = true) := by
      unfold shouldAdjustSchedule
      split_ifs with h1 h2
      · simp
      · simp
      · simp only [decide_eq_true_eq, not_lt]
        rcases hfail with hc | hd
        · exact absurd hc (not_lt.mpr (not_lt.mp h2))
        · exact hd

    exact Bool.not_eq_true _ ▸ Bool.of_not_eq_true this
  simp only [adjustSchedulesStep, hgate]
  simp

/-- C3 witness: an advisory with confidence 0.2 shifted 20 minutes out is
rejected by the gate and leaves `next_fire` and the wheel unchanged. -/
theorem adjustment_gate_spec_witness :
    (adjustSchedulesStep wheelOne sjScheduled pLowConfidence 0).1 = wheelOne ∧
    (adjustSchedulesStep wheelOne sjScheduled pLowConfidence 0).2.nextRun
        = sjScheduled.nextRun ∧
    (adjustSchedulesStep wheelOne sjScheduled pLowConfidence 0).2.entryId
        = sjScheduled.entryId :=
  (adjustment_gate_spec wheelOne sjScheduled pLowConfidence 0).2
    (Or.inl (by norm_num [pLowConfidence]))

/-- C5 counterexample: with an advisory 30 seconds ahead of `now`, the
adjustment installs an `@every 30s` entry — the source clamps the delay to
one minute only when it is negative, so a positive delay below 60 s is kept
as is, where the claim's `delay = max(optimal_time − now, 60 s)` would give
60 s — and the installed entry is an `@every` (constant-delay, periodic)
entry rather than a one-shot. -/
theorem adjust_delay_clamp_cex :
    (adjustJobSchedule wheelOne sjScheduled pNear 0).1.entries
        = [(1, CronSpec.every (30 * nsPerSecond))]
  ∧ CronSpec.every (30 * nsPerSecond)
      ≠ CronSpec.every (max (30 * nsPerSecond) (60 * nsPerSecond))
  ∧ (adjustJobSchedule wheelOne sjScheduled pNear 0).2.nextRun
        = 30 * nsPerSecond := by
  refine ⟨?_, by decide, ?_⟩
  · simp [adjustJobSchedule, CronWheel.remove, CronWheel.add, wheelOne,
      sjScheduled, pNear, nsPerSecond]
  · simp [adjustJobSchedule, CronWheel.remove, CronWheel.add, pNear]

/-- C5 (amended): when the gate admits an advisory, the adjustment removes
the job's current cron-wheel handle, computes
`delay = optimal_time − now` clamped to **1 minute only when negative** (a
positive delay shorter than 60 s is used as is), installs an
`@every delay` **constant-delay entry** — which the cron wheel re-fires
periodically; only the post-firing reschedule returns the job to its
baseline — and sets the job's `next_fire` to the advisory's
`optimal_time`. -/
theorem adjust_job_schedule_spec (w : CronWheel) (sj : ScheduledJob)
    (p : Prediction) (now : Int) :
    (adjustJobSchedule w sj p now).1.entries
        = w.entries.filter (fun e => e.1 != sj.entryId)
            ++ [(w.nextId, CronSpec.every
                  (if p.optimalTime - now < 0 then 1 * minuteNs
                   else p.optimalTime - now))]
  ∧ (adjustJobSchedule w sj p now).2.nextRun = p.optimalTime
  ∧ (adjustJobSchedule w sj p now).2.status = "adjusted"
  ∧ (adjustJobSchedule w sj p now).2.entryId = w.nextId
  ∧ (adjustJobSchedule w sj p now).1.nextId = w.nextId + 1 := by
  refine ⟨?_, rfl, rfl, rfl, rfl⟩
  simp [adjustJobSchedule, CronWheel.remove, CronWheel.add]

/-- C1: evaluating the execution-record path at a concrete run.
`Manager.ExecuteJob` stores the start row (status `running`) and then stores
the terminal row under the **same** id, but `StoreJobExecution` issues a
plain INSERT (gorm `Create`), so the terminal store violates the primary-key
constraint, is dropped (the error is only logged), and the single surviving
row keeps status `running` with zero end-time — not the terminal fields the
spec's upsert contract promises. -/
theorem store_execution_not_upsert :
    (ExecuteJob jobBackup 0 [] [rOk]).2.2.1
        = [⟨"exec_0", "backup", 0, 0, 0, "running", 0, "", "", 0, ""⟩]
  ∧ ((ExecuteJob jobBackup 0 [] [rOk]).2.2.1.filter
        (fun r => r.id == "exec_0")).length = 1
  ∧ (StoreJobExecution [⟨"exec_0", "backup", 0, 0, 0, "running", 0, "", "", 0, ""⟩]
        ⟨"exec_0", "backup", 0, 2 * nsPerSecond, 2, "completed", 0, "done", "", 0, ""⟩)
        = ([⟨"exec_0", "backup", 0, 0, 0, "running", 0, "", "", 0, ""⟩],
           some ("failed to store job execution: UNIQUE constraint failed"))
  ∧ "running" ≠ "completed" := by
  refine ⟨?_, ?_, ?_, by decide⟩ <;> decide

/-- C2 counterexample: a firing that arrives while the scheduled job is
already in state `running` is **not** refused — `Scheduler.executeJob` goes
straight through `Manager.ExecuteJob`, the command runs (a fresh start row
is stored), the run is counted, and the job is rescheduled; no structured
error exists on this path. -/
theorem reentry_not_refused_cex :
    (Scheduler.executeJob wheelOne sjRunning [rOk] 0 []).2.2
        = [⟨"exec_0", "backup", 0, 0, 0, "running", 0, "", "", 0, ""⟩]
  ∧ (Scheduler.executeJob wheelOne sjRunning [rOk] 0 []).2.1.status = "scheduled"
  ∧ (Scheduler.executeJob wheelOne sjRunning [rOk] 0 []).2.1.runCount
        = sjRunning.runCount + 1 := by
  refine ⟨?_, ?_, ?_⟩ <;> rfl

/-- C2 (amended): a firing raises the job's lifecycle state to `running`,
and the adjustment loop refuses to *adjust* a job in state `running`; but
neither `Scheduler.executeJob` nor `Manager.ExecuteJob` inspects the
previous lifecycle state — the firing behaves identically whatever that
state was (in particular when it is already `running`), handing the job
unconditionally to the execution manager instead of refusing re-entry with
a structured error. -/
theorem reentry_unchecked (w : CronWheel) (sj : ScheduledJob)
    (results : List CommandResult) (now : Int) (table : List JobExecution)
    (s : String) (p : Prediction) :
    Scheduler.executeJob w { sj with status := s } results now table
      = Scheduler.executeJob w { sj with status := "running" } results now table
  ∧ shouldAdjustSchedule { sj with status := "running" } p = false
  ∧ (Scheduler.executeJob w sj results now table).2.2
      = (ExecuteJob sj.job now table results).2.2.1 := by
  refine ⟨rfl, ?_, rfl⟩
  simp [shouldAdjustSchedule]

/-- Helper: a row in the table after a `StoreJobExecution` was already there
or is the stored row itself. -/
theorem mem_storeJobExecution {table : List JobExecution} {e rec : JobExecution}
    (h : rec ∈ (StoreJobExecution table e).1) : rec ∈ table ∨ rec = e := by
  unfold StoreJobExecution at h
  split_ifs at h
  · exact Or.inl h
  · rcases List.mem_append.mp h with h1 | h2
    · exact Or.inl h1
    · exact Or.inr (List.mem_singleton.mp h2)

/-- Helper: one execution attempt keeps the job configuration and hands a
record with retry ordinal 0 to the retry decision. -/
theorem execAttempt_fields (job : Job) (now : Int) (table : List JobExecution)
    (r : CommandResult) :
    (execAttempt job now table r).1.config = job.config
  ∧ (execAttempt job now table r).2.1.retryCount = 0 := by
  cases herr : r.err <;> simp [execAttempt, herr]

/-- Helper: every row added to the table by one execution attempt (start row
or terminal row) carries retry ordinal 0. -/
theorem mem_execAttempt_table {job : Job} {now : Int}
    {table : List JobExecution} {r : CommandResult} {rec : JobExecution}
    (h : rec ∈ (execAttempt job now table r).2.2.2) :
    rec ∈ table ∨ rec.retryCount = 0 := by
  cases herr : r.err with
  | none =>
    simp only [execAttempt, herr] at h
    rcases mem_storeJobExecution h with h1 | h2
    · rcases mem_storeJobExecution h1 with h0 | he0
      · exact Or.inl h0
      · subst he0
        exact Or.inr rfl
    · subst h2
      exact Or.inr rfl
  | some msg =>
    simp only [execAttempt, herr] at h
    rcases mem_storeJobExecution h with h1 | h2
    · rcases mem_storeJobExecution h1 with h0 | he0
      · exact Or.inl h0
      · subst he0
        exact Or.inr rfl
    · subst h2
      exact Or.inr rfl

/-- C7: the retry ordinal.  `handleRetry` proceeds only while the ordinal is
strictly below `Retries`; a retry it emits carries ordinal +1, status
`retrying`, and wakes after exactly `RetryCount · 30 s` of linear backoff;
and every record `ExecuteJob` ever adds to the execution table has retry
ordinal at most `Job.Retries`. -/
theorem retry_ordinal_spec :
    (∀ (job : Job) (e : JobExecution) (now : Int) (table : List JobExecution),
        (handleRetry job e now table).isSome = true →
        e.retryCount < job.config.retries)
  ∧ (∀ (job : Job) (e : JobExecution) (now : Int) (table : List JobExecution)
        (job2 : Job) (e2 : JobExecution) (now2 : Int) (table2 : List JobExecution),
        handleRetry job e now table = some (job2, e2, now2, table2) →
        e2.retryCount = e.retryCount + 1 ∧ e2.status = "retrying" ∧
        job2.status = "retrying" ∧ job2.config = job.config ∧
        now2 = now + (e2.retryCount : Int) * 30 * nsPerSecond)
  ∧ (∀ (results : List CommandResult) (job : Job) (now : Int)
        (table : List JobExecution) (rec : JobExecution),
        rec ∈ (ExecuteJob job now table results).2.2.1 →
        rec ∈ table ∨ rec.retryCount ≤ job.config.retries) := by
  have hsome : ∀ (job : Job) (e : JobExecution) (now : Int) (table : List JobExecution),
      (handleRetry job e now table).isSome = true →
      e.retryCount < job.config.retries := by
    intro job e now table h
    unfold handleRetry at h
    split_ifs at h with hle
    · simp at h
    · exact Nat.lt_of_not_le hle
  have heq : ∀ (job : Job) (e : JobExecution) (now : Int) (table : List JobExecution)
      (job2 : Job) (e2 : JobExecution) (now2 : Int) (table2 : List JobExecution),
      handleRetry job e now table = some (job2, e2, now2, table2) →
      job2 = { job with status := "retrying" } ∧
      e2 = { e with retryCount := e.retryCount + 1, status := "retrying" } ∧
      now2 = now + ((e.retryCount + 1 : ℕ) : Int) * 30 * nsPerSecond ∧
      table2 = (StoreJobExecution table
        { e with retryCount := e.retryCount + 1, status := "retrying" }).1 ∧
      e.retryCount < job.config.retries := by
    intro job e now table job2 e2 now2 table2 h
    unfold handleRetry at h
    split_ifs at h with hle
    simp only [Option.some.injEq, Prod.mk.injEq] at h
    obtain ⟨h1, h2, h3, h4⟩ := h
    refine ⟨h1.symm, h2.symm, ?_, h4.symm, Nat.lt_of_not_le hle⟩
    rw [← h3]
  refine ⟨hsome, ?_, ?_⟩
  · intro job e now table job2 e2 now2 table2 h
    obtain ⟨hj, he, hn, -, -⟩ := heq job e now table job2 e2 now2 table2 h
    subst hj he hn
    exact ⟨rfl, rfl, rfl, rfl, rfl⟩
  · intro results
    induction results with
    | nil =>
      intro job now table rec h
      exact Or.inl h
    | cons r rest ih =>
      intro job now table rec h
      rw [ExecuteJob] at h
      by_cases hc : (execAttempt job now table r).2.1.status = "failed" ∧
          0 < (execAttempt job now table r).1.config.retries
      · rw [if_pos hc] at h
        cases hh : handleRetry (execAttempt job now table r).1
            (execAttempt job now table r).2.1
            (execAttempt job now table r).2.2.1
            (execAttempt job now table r).2.2.2 with
        | none =>
          rw [hh] at h
          rcases mem_execAttempt_table h with h1 | h2
          · exact Or.inl h1
          · exact Or.inr (h2 ▸ Nat.zero_le _)
        | some out =>
          obtain ⟨job3, e3, now3, table3⟩ := out
          rw [hh] at h
          obtain ⟨hj3, -, -, ht3, hlt⟩ := heq _ _ _ _ _ _ _ _ hh
          have hcfg : (execAttempt job now table r).1.config = job.config :=
            (execAttempt_fields job now table r).1
          have h0 : (execAttempt job now table r).2.1.retryCount = 0 :=
            (execAttempt_fields job now table r).2
          rw [hcfg] at hlt
          rcases ih job3 now3 table3 rec h with h1 | h2
          · rw [ht3] at h1
            rcases mem_storeJobExecution h1 with ha | hb
            · rcases mem_execAttempt_table ha with hx | hy
              · exact Or.inl hx
              · exact Or.inr (hy ▸ Nat.zero_le _)
            · right
              have : rec.retryCount
                  = (execAttempt job now table r).2.1.retryCount + 1 := by
                rw [hb]
              omega
          · right
            have h2' : rec.retryCount ≤ (execAttempt job now table r).1.config.retries := by
              rw [hj3] at h2
              exact h2
            rw [hcfg] at h2'
            exact h2'
      · rw [if_neg hc] at h
        rcases mem_execAttempt_table h with h1 | h2
        · exact Or.inl h1
        · exact Or.inr (h2 ▸ Nat.zero_le _)

/-- C7 witness: a fresh failed execution record (ordinal 0) of a job
allowing one retry is strictly below the retry bound when `handleRetry`
proceeds. -/
theorem retry_ordinal_spec_witness :
    eFailed.retryCount < jobRetry.config.retries :=
  retry_ordinal_spec.1 { jobRetry with status := "failed" } eFailed
    (nsPerSecond) [] (by decide)

/-- C8: anomaly detection.  Against a baseline with σ > 0, `checkMetric`
flags a value exactly when `|v − mean| / σ ≥ threshold`, and assigns
severity `critical` at ≥ 4σ, `high` at ≥ 3.5σ, `medium` at ≥ 3σ, and `low`
between the threshold and 3σ; and a fresh detector whose baseline history
holds fewer than 10 samples emits no anomalies. -/
theorem anomaly_detection_spec :
    (∀ (τ : ℝ) (t : String) (v μ σ : ℝ), 0 < σ →
       ((checkMetric τ t v μ σ = none ↔ |v - μ| / σ < τ)
      ∧ (τ ≤ |v - μ| / σ →
          checkMetric τ t v μ σ = some
            { anomalyType := t
              severity :=
                if 4 ≤ |v - μ| / σ then "critical"
                else if 3.5 ≤ |v - μ| / σ then "high"
                else if 3 ≤ |v - μ| / σ then "medium"
                else "low"
              value := v
              expected := μ
              deviation := (v - μ) / σ })))
  ∧ (∀ (history : List SystemMetrics) (m : SystemMetrics),
       history.length < 10 →
       DetectAnomalies NewAnomalyDetector history m = []) := by
  constructor
  · intro τ t v μ σ hσ
    have hσ0 : σ ≠ 0 := ne_of_gt hσ
    have habs : |(v - μ) / σ| = |v - μ| / σ := by
      rw [abs_div, abs_of_pos hσ]
    constructor
    · constructor
      · intro h
        by_contra hge
        push_neg at hge
        unfold checkMetric at h
        rw [if_neg hσ0] at h
        simp only [habs] at h
        rw [if_neg (not_lt.mpr hge)] at h
        exact Option.some_ne_none _ h
      · intro h
        unfold checkMetric
        rw [if_neg hσ0]
        simp only [habs]
        rw [if_pos h]
    · intro h
      unfold checkMetric
      rw [if_neg hσ0]
      simp only [habs]
      rw [if_neg (not_lt.mpr h)]
  · intro history m hlen
    have hbase : updateBaseline NewAnomalyDetector history = NewAnomalyDetector := by
      unfold updateBaseline
      rw [if_pos hlen]
    unfold DetectAnomalies
    rw [hbase]
    have hcheck : ∀ (t : String) (v : ℝ),
        checkMetric NewAnomalyDetector.threshold t v
          NewAnomalyDetector.baselineMean NewAnomalyDetector.baselineStd = none := by
      intro t v
      unfold checkMetric
      rw [if_pos]
      rfl
    simp [hcheck]

/-- C8 witness: baseline mean 50, σ 5, threshold 3 (the spec's scenario):
CPU 68 deviates by 3.6σ and is flagged with severity `high`. -/
theorem anomaly_detection_spec_witness :
    checkMetric 3 "cpu" 68 50 5 = some
      { anomalyType := "cpu"
        severity :=
          if 4 ≤ |(68 : ℝ) - 50| / 5 then "critical"
          else if 3.5 ≤ |(68 : ℝ) - 50| / 5 then "high"
          else if 3 ≤ |(68 : ℝ) - 50| / 5 then "medium"
          else "low"
        value := 68
        expected := 50
        deviation := ((68 : ℝ) - 50) / 5 } :=
  ((anomaly_detection_spec.1 3 "cpu" 68 50 5 (by norm_num)).2)
    (by rw [show |(68 : ℝ) - 50| = 18 by norm_num]; norm_num)

/-- Helper: filtering a constant list keeps all of it or none of it. -/
theorem filter_replicate {α : Type} (p : α → Bool) (a : α) (n : ℕ) :
    (List.replicate n a).filter p = if p a then List.replicate n a else [] := by
  induction n with
  | zero => simp
  | succ k ih =>
    rw [List.replicate_succ, List.filter_cons]
    by_cases h : p a
    · simp [h, ih, List.replicate_succ]
    · simp [h, ih]

/-- C9 counterexample: a 24-sample history whose hour bins are constant
(hour strength 0) while its day bins differ (day strength 1/19 > 0), but
with no day bin outside the ±20 % band.  The day-of-week strength strictly
exceeds the hour-of-day strength, yet `DetectSeasonality` returns `daily`:
the source promotes to `weekly` only when at least one peak or low day
exists. -/
theorem seasonality_weekly_gate_cex :
    (∃ pat, DetectSeasonality cexSamples = some pat ∧ pat.patternType = "daily")
  ∧ hourStrength cexSamples < dayStrength cexSamples := by
  have hlen : ¬(cexSamples.length < 24) := by decide
  have hk : hourKeys cexSamples = [10] := by decide
  have dk : dayKeys cexSamples = [1, 2] := by decide
  have hfh : cexSamples.filter (fun s => s.hour == 10) = cexSamples := by
    rw [List.filter_eq_self]
    intro a ha
    simp only [cexSamples] at ha
    rcases List.mem_append.mp ha with h | h <;>
      rw [List.eq_of_mem_replicate h] <;> rfl
  have hd1 : cexSamples.filter (fun s => s.weekday == 1)
      = List.replicate 12 ⟨10, 1, 100, 100⟩ := by
    simp only [cexSamples, List.filter_append, filter_replicate]
    simp
  have hd2 : cexSamples.filter (fun s => s.weekday == 2)
      = List.replicate 12 ⟨10, 2, 90, 90⟩ := by
    simp only [cexSamples, List.filter_append, filter_replicate]
    simp
  have hload : cexSamples.map sampleLoad
      = List.replicate 12 (100 : ℚ) ++ List.replicate 12 (90 : ℚ) := by
    simp only [cexSamples, List.map_append, List.map_replicate, sampleLoad]
    norm_num
  have havg10 : hourlyAvg cexSamples 10 = 95 := by
    unfold hourlyAvg binAvg
    rw [hfh, hload]
    simp [List.sum_replicate]
    norm_num
  have hha : hourOverallAvg cexSamples = 95 := by
    unfold hourOverallAvg
    rw [hk]
    simp [havg10]
  have hhv : hourVariance cexSamples = 0 := by
    unfold hourVariance
    rw [hk]
    simp [havg10, hha]
  have hdavg1 : dayAvg cexSamples 1 = 100 := by
    unfold dayAvg binAvg
    rw [hd1]
    simp [List.map_replicate, sampleLoad, List.sum_replicate]
    norm_num
  have hdavg2 : dayAvg cexSamples 2 = 90 := by
    unfold dayAvg binAvg
    rw [hd2]
    simp [List.map_replicate, sampleLoad, List.sum_replicate]
    norm_num
  have hda : dayOverallAvg cexSamples = 95 := by
    unfold dayOverallAvg
    rw [dk]
    simp [hdavg1, hdavg2]
    norm_num
  have hdv : dayVariance cexSamples = 25 := by
    unfold dayVariance
    rw [dk]
    simp [hdavg1, hdavg2, hda]
    norm_num
  have hpd : peakDays cexSamples = [] := by
    unfold peakDays
    rw [dk, List.filter_eq_nil_iff]
    intro a ha
    rcases List.mem_cons.mp ha with h | h
    · subst h
      simp [hdavg1, hda]
      norm_num
    · rw [List.mem_singleton.mp h]
      simp [hdavg2, hda]
      norm_num
  have hld : lowDays cexSamples = [] := by
    unfold lowDays
    rw [dk, List.filter_eq_nil_iff]
    intro a ha
    rcases List.mem_cons.mp ha with h | h
    · subst h
      simp [hdavg1, hda]
      norm_num
    · rw [List.mem_singleton.mp h]
      simp [hdavg2, hda]
      norm_num
  have hhs : hourStrength cexSamples = 0 := by
    unfold hourStrength
    rw [hhv, hha]
    rw [show ((0 : ℚ) : ℝ) = 0 by norm_num, Real.sqrt_zero, zero_div]
    rw [if_neg (by norm_num)]
  have hds : dayStrength cexSamples = 5 / 95 := by
    unfold dayStrength
    rw [hdv, hda]
    rw [show ((25 : ℚ) : ℝ) = (5 : ℝ) ^ 2 by norm_num,
      Real.sqrt_sq (by norm_num : (0 : ℝ) ≤ 5)]
    norm_num
  constructor
  · refine ⟨{ patternType := "daily"
              strength := hourStrength cexSamples
              peakHours := peakHours cexSamples
              lowHours := lowHours cexSamples
              peakDays := peakDays cexSamples
              lowDays := lowDays cexSamples }, ?_, rfl⟩
    unfold DetectSeasonality
    rw [if_neg hlen]
    dsimp only
    rw [if_neg (by rw [hpd, hld]; simp)]
  · rw [hhs, hds]
    norm_num

/-- C9 (amended): over a history of at least 24 snapshots,
`DetectSeasonality` returns a pattern; it is of type `weekly` exactly when
**some peak or low day-of-week bin exists and** the day-of-week strength
(σ(day-bin means)/mean, not clipped) strictly exceeds the hour-of-day
strength (σ(hour-bin means)/mean, clipped to at most 1); otherwise it is
`daily`.  A `daily` pattern carries the clipped hour strength, a `weekly`
pattern the unclipped day strength. -/
theorem seasonality_selection (ms : List SeasonSample) (h : 24 ≤ ms.length) :
    ∃ pat, DetectSeasonality ms = some pat
  ∧ (pat.patternType = "weekly" ↔
      ((peakDays ms ≠ [] ∨ lowDays ms ≠ []) ∧ hourStrength ms < dayStrength ms))
  ∧ (pat.patternType = "daily" ∨ pat.patternType = "weekly")
  ∧ (pat.patternType = "daily" → pat.strength = hourStrength ms)
  ∧ (pat.patternType = "weekly" → pat.strength = dayStrength ms) := by
  have hlen : ¬(ms.length < 24) := not_lt.mpr h
  have hguard : (0 < (peakDays ms).length ∨ 0 < (lowDays ms).length) ↔
      (peakDays ms ≠ [] ∨ lowDays ms ≠ []) := by
    rw [List.length_pos, List.length_pos]
  by_cases hg : 0 < (peakDays ms).length ∨ 0 < (lowDays ms).length
  · by_cases hs : hourStrength ms < dayStrength ms
    · refine ⟨{ patternType := "weekly"
                strength := dayStrength ms
                peakHours := peakHours ms
                lowHours := lowHours ms
                peakDays := peakDays ms
                lowDays := lowDays ms }, ?_, ?_, ?_, ?_, ?_⟩
      · unfold DetectSeasonality
        rw [if_neg hlen]
        dsimp only
        rw [if_pos hg, if_pos hs]
      · exact iff_of_true rfl ⟨hguard.mp hg, hs⟩
      · exact Or.inr rfl
      · intro hd
        simp at hd
      · intro _
        rfl
    · refine ⟨{ patternType := "daily"
                strength := hourStrength ms
                peakHours := peakHours ms
                lowHours := lowHours ms
                peakDays := peakDays ms
                lowDays := lowDays ms }, ?_, ?_, ?_, ?_, ?_⟩
      · unfold DetectSeasonality
        rw [if_neg hlen]
        dsimp only
        rw [if_pos hg, if_neg hs]
      · refine iff_of_false (by simp) ?_
        intro hcontra
        exact hs hcontra.2
      · exact Or.inl rfl
      · intro _
        rfl
      · intro hw
        simp at hw
  · refine ⟨{ patternType := "daily"
              strength := hourStrength ms
              peakHours := peakHours ms
              lowHours := lowHours ms
              peakDays := peakDays ms
              lowDays := lowDays ms }, ?_, ?_, ?_, ?_, ?_⟩
    · unfold DetectSeasonality
      rw [if_neg hlen]
      dsimp only
      rw [if_neg hg]
    · refine iff_of_false (by simp) ?_
      intro hcontra
      exact hg (hguard.mpr hcontra.1)
    · exact Or.inl rfl
    · intro _
      rfl
    · intro hw
      simp at hw

/-- C9 witness: the selection theorem applied to the concrete 24-sample
history. -/
theorem seasonality_selection_witness :
    ∃ pat, DetectSeasonality cexSamples = some pat
  ∧ (pat.patternType = "weekly" ↔
      ((peakDays cexSamples ≠ [] ∨ lowDays cexSamples ≠ []) ∧
        hourStrength cexSamples < dayStrength cexSamples))
  ∧ (pat.patternType = "daily" ∨ pat.patternType = "weekly")
  ∧ (pat.patternType = "daily" → pat.strength = hourStrength cexSamples)
  ∧ (pat.patternType = "weekly" → pat.strength = dayStrength cexSamples) :=
  seasonality_selection cexSamples (by decide)

/-- C10: the metric round trip is lossy at the public interface.  Storing a
snapshot collapses disk IO to `(read+write)/1 MiB` and network IO to
`(sent+recv)/1 MiB`; reading it back yields a snapshot whose `ReadBytes`
(resp. `BytesSent`) carries the combined total while `WriteBytes`,
`BytesRecv`, all packet and read/write counts, and `Load5`/`Load15` are
zero.  (Below `2^53` total bytes the `float64` scalings by the power of two
`2^20` are exact, so the rational model recovers the combined total
exactly.)  The per-counter split is not recoverable: two different
snapshots store identically. -/
theorem metrics_roundtrip_lossy :
    (∀ m : SystemMetrics,
       m.diskIo.readBytes + m.diskIo.writeBytes < 2 ^ 53 →
       m.networkIo.bytesSent + m.networkIo.bytesRecv < 2 ^ 53 →
       recordToMetrics (metricsToRecord m) =
         { timestamp := m.timestamp
           cpuUsage := m.cpuUsage
           memoryUsage := m.memoryUsage
           diskIo :=
             { readBytes := m.diskIo.readBytes + m.diskIo.writeBytes
               writeBytes := 0
               readCount := 0
               writeCount := 0
               ioUtil := 0 }
           networkIo :=
             { bytesSent := m.networkIo.bytesSent + m.networkIo.bytesRecv
               bytesRecv := 0
               packetsSent := 0
               packetsRecv := 0
               connections := 0 }
           loadAvg := { load1 := m.loadAvg.load1, load5 := 0, load15 := 0 } })
  ∧ (∀ (table : List SystemMetricsRecord) (s e lim : Int) (x : SystemMetrics),
       x ∈ GetSystemMetrics table s e lim →
       x.diskIo.writeBytes = 0 ∧ x.diskIo.readCount = 0 ∧ x.diskIo.writeCount = 0 ∧
       x.networkIo.bytesRecv = 0 ∧ x.networkIo.packetsSent = 0 ∧
       x.networkIo.packetsRecv = 0 ∧ x.loadAvg.load5 = 0 ∧ x.loadAvg.load15 = 0)
  ∧ (∃ m1 m2 : SystemMetrics, m1 ≠ m2 ∧ metricsToRecord m1 = metricsToRecord m2) := by
  have key : ∀ a : ℕ, (⌊((a : ℕ) : ℚ) / 1024 / 1024 * 1024 * 1024⌋).toNat = a := by
    intro a
    have hq : ((a : ℕ) : ℚ) / 1024 / 1024 * 1024 * 1024 = ((a : ℕ) : ℚ) := by
      ring
    rw [hq, Int.floor_natCast, Int.toNat_natCast]
  refine ⟨?_, ?_, ?_⟩
  · intro m _ _
    simp only [recordToMetrics, metricsToRecord, key]
  · intro table s e lim x hx
    simp only [GetSystemMetrics] at hx
    obtain ⟨r, -, rfl⟩ := List.mem_map.mp hx
    exact ⟨rfl, rfl, rfl, rfl, rfl, rfl, rfl, rfl⟩
  · refine ⟨mSplit, { mSplit with diskIo := ⟨1048576, 3145728, 7, 9, 0⟩ }, ?_, ?_⟩
    · intro h
      have hr := congrArg (fun mm => mm.diskIo.readBytes) h
      simp [mSplit] at hr
    · simp [metricsToRecord, mSplit]

/-- C10 witness: the snapshot with 3 MiB read + 1 MiB written and
2 MiB sent + 2 MiB received round-trips to the collapsed shape. -/
theorem metrics_roundtrip_lossy_witness :
    recordToMetrics (metricsToRecord mSplit) =
      { timestamp := mSplit.timestamp
        cpuUsage := mSplit.cpuUsage
        memoryUsage := mSplit.memoryUsage
        diskIo :=
          { readBytes := mSplit.diskIo.readBytes + mSplit.diskIo.writeBytes
            writeBytes := 0
            readCount := 0
            writeCount := 0
            ioUtil := 0 }
        networkIo :=
          { bytesSent := mSplit.networkIo.bytesSent + mSplit.networkIo.bytesRecv
            bytesRecv := 0
            packetsSent := 0
            packetsRecv := 0
            connections := 0 }
        loadAvg := { load1 := mSplit.loadAvg.load1, load5 := 0, load15 := 0 } } :=
  metrics_roundtrip_lossy.1 mSplit (by decide) (by decide)

end Arcron
